import Mathlib

set_option maxHeartbeats 1000000

/- Shallow embedding of `src/openssl/src/ssl/connector.rs`: TLS connector and
acceptor profile builders, and the callback-driven hostname verification used
when the engine has no native checker.  Strings are modelled as `List Char`
(the code only slices at character boundaries), byte strings as `List Nat`. -/

/- ---------------------------------------------------------------------------
Flag sets.  `SslOptions` and `SslMode` are bitflag types provided by the
surrounding crate (not under src/); a flag set is modelled extensionally as a
boolean-valued function on an enumeration of the flags the connector touches.
--------------------------------------------------------------------------- -/

/-- Protocol-option flags referenced by the connector code. `LEGACY_WORKAROUNDS`
stands for the remaining workaround bits bundled inside `SslOptions::ALL`. -/
inductive SslOpt where
  | NO_COMPRESSION
  | NO_SSLV2
  | NO_SSLV3
  | SINGLE_DH_USE
  | SINGLE_ECDH_USE
  | CIPHER_SERVER_PREFERENCE
  | DONT_INSERT_EMPTY_FRAGMENTS
  | LEGACY_WORKAROUNDS
  | NO_TLSV1
  | NO_TLSV1_1
  | NO_TLSV1_3
deriving DecidableEq

/-- Mode flags referenced by the connector code. -/
inductive SslModeFlag where
  | AUTO_RETRY
  | ACCEPT_MOVING_WRITE_BUFFER
  | ENABLE_PARTIAL_WRITE
  | RELEASE_BUFFERS
deriving DecidableEq

/-- The empty flag set. -/
def noFlags {α : Type} : α → Bool := fun _ => false

/-- The singleton flag set. -/
def oneFlag {α : Type} [DecidableEq α] (a : α) : α → Bool := fun x => decide (x = a)

/-- Union of two flag sets (bitwise `|`). -/
def orFlags {α : Type} (f g : α → Bool) : α → Bool := fun x => f x || g x

/-- Intersection of two flag sets (bitwise `&`). -/
def andFlags {α : Type} (f g : α → Bool) : α → Bool := fun x => f x && g x

/-- Complement of a flag set (bitwise `!`). -/
def notFlags {α : Type} (f : α → Bool) : α → Bool := fun x => ! f x

namespace SslOptions

/-- Modelled from the spec: `SslOptions::ALL` is the engine's bundle of
compatibility workaround bits; it contains `DONT_INSERT_EMPTY_FRAGMENTS`
(which `ctx` removes again) plus other bits irrelevant here. -/
def ALL : SslOpt → Bool :=
  orFlags (oneFlag SslOpt.LEGACY_WORKAROUNDS) (oneFlag SslOpt.DONT_INSERT_EMPTY_FRAGMENTS)

def NO_COMPRESSION : SslOpt → Bool := oneFlag SslOpt.NO_COMPRESSION

def NO_SSLV2 : SslOpt → Bool := oneFlag SslOpt.NO_SSLV2

def NO_SSLV3 : SslOpt → Bool := oneFlag SslOpt.NO_SSLV3

def SINGLE_DH_USE : SslOpt → Bool := oneFlag SslOpt.SINGLE_DH_USE

def SINGLE_ECDH_USE : SslOpt → Bool := oneFlag SslOpt.SINGLE_ECDH_USE

def CIPHER_SERVER_PREFERENCE : SslOpt → Bool := oneFlag SslOpt.CIPHER_SERVER_PREFERENCE

def DONT_INSERT_EMPTY_FRAGMENTS : SslOpt → Bool := oneFlag SslOpt.DONT_INSERT_EMPTY_FRAGMENTS

def NO_TLSV1 : SslOpt → Bool := oneFlag SslOpt.NO_TLSV1

def NO_TLSV1_1 : SslOpt → Bool := oneFlag SslOpt.NO_TLSV1_1

def NO_TLSV1_3 : SslOpt → Bool := oneFlag SslOpt.NO_TLSV1_3

end SslOptions

namespace SslMode

def AUTO_RETRY : SslModeFlag → Bool := oneFlag SslModeFlag.AUTO_RETRY

def ACCEPT_MOVING_WRITE_BUFFER : SslModeFlag → Bool := oneFlag SslModeFlag.ACCEPT_MOVING_WRITE_BUFFER

def ENABLE_PARTIAL_WRITE : SslModeFlag → Bool := oneFlag SslModeFlag.ENABLE_PARTIAL_WRITE

def RELEASE_BUFFERS : SslModeFlag → Bool := oneFlag SslModeFlag.RELEASE_BUFFERS

end SslMode

/- ---------------------------------------------------------------------------
IP addresses.  `std::net::IpAddr` from the Rust standard library (an external
collaborator of this crate, per spec section 6).
--------------------------------------------------------------------------- -/

/-- Modelled from the spec: the collaborator type `std::net::IpAddr` — a parsed
v4 (four octets) or v6 (eight 16-bit segments) address. -/
inductive IpAddr where
  | V4 (a b c d : Nat)
  | V6 (s1 s2 s3 s4 s5 s6 s7 s8 : Nat)
deriving DecidableEq

/-- Canonical octet representation: 4 bytes for v4, 16 bytes (big-endian
segment split) for v6, as Rust's `octets()`. -/
def IpAddr.octets : IpAddr → List Nat
  | IpAddr.V4 a b c d => [a % 256, b % 256, c % 256, d % 256]
  | IpAddr.V6 s1 s2 s3 s4 s5 s6 s7 s8 =>
    [s1 / 256 % 256, s1 % 256, s2 / 256 % 256, s2 % 256,
     s3 / 256 % 256, s3 % 256, s4 / 256 % 256, s4 % 256,
     s5 / 256 % 256, s5 % 256, s6 / 256 % 256, s6 % 256,
     s7 / 256 % 256, s7 % 256, s8 / 256 % 256, s8 % 256]

/-- Decimal digit test. -/
def isDigitCh (c : Char) : Bool := decide ('0' ≤ c) && decide (c ≤ '9')

/-- Decimal digit value. -/
def digitVal (c : Char) : Nat := c.toNat - '0'.toNat

/-- Modelled from the spec: one dotted-quad field of the collaborator IPv4
parser — decimal, at most 255, no redundant leading zero. -/
def parseOctet (s : List Char) : Option Nat :=
  if s = [] then none
  else if ¬ (s.all isDigitCh) then none
  else
    let n := s.foldl (fun a c => a * 10 + digitVal c) 0
    if n ≤ 255 ∧ (s.head? = some '0' → s.length = 1) then some n else none

/-- Modelled from the spec: the collaborator IPv4 textual parser (exactly four
'.'-separated decimal octets). -/
def parseIpv4 (s : List Char) : Option IpAddr :=
  match s.splitOn '.' with
  | [a, b, c, d] =>
    match parseOctet a, parseOctet b, parseOctet c, parseOctet d with
    | some x, some y, some z, some w => some (IpAddr.V4 x y z w)
    | _, _, _, _ => none
  | _ => none

/-- Hexadecimal digit value. -/
def hexVal (c : Char) : Option Nat :=
  if decide ('0' ≤ c) && decide (c ≤ '9') then some (c.toNat - '0'.toNat)
  else if decide ('a' ≤ c) && decide (c ≤ 'f') then some (c.toNat - 'a'.toNat + 10)
  else if decide ('A' ≤ c) && decide (c ≤ 'F') then some (c.toNat - 'A'.toNat + 10)
  else none

/-- One 16-bit hex group of an IPv6 address (one to four hex digits). -/
def parseHexGroup (s : List Char) : Option Nat :=
  if s = [] ∨ 4 < s.length then none
  else
    s.foldl (fun acc c =>
      match acc, hexVal c with
      | some n, some d => some (n * 16 + d)
      | _, _ => none) (some 0)

/-- Modelled from the spec: the collaborator IPv6 textual parser, restricted to
the full eight-group form (the spec only requires that v4/v6 text classify as
IP; no claim exercises compressed v6 forms). -/
def parseIpv6 (s : List Char) : Option IpAddr :=
  match (s.splitOn ':').mapM parseHexGroup with
  | some [a, b, c, d, e, f, g, h] => some (IpAddr.V6 a b c d e f g h)
  | _ => none

/-- Modelled from the spec: `str::parse::<IpAddr>` — classify textual input as
an IPv4 or IPv6 address, trying v4 first; malformed text is "not an IP". -/
def parseIp (s : List Char) : Option IpAddr :=
  match parseIpv4 s with
  | some ip => some ip
  | none => parseIpv6 s

/- ---------------------------------------------------------------------------
UTF-8 decoding (`str::from_utf8`, a standard-library collaborator).
--------------------------------------------------------------------------- -/

/-- Modelled from the spec: the collaborator `str::from_utf8` — strict UTF-8
validation and decoding of a byte sequence (rejecting overlong forms,
surrogates and out-of-range code points). -/
def utf8Decode : List Nat → Option (List Char)
  | [] => some []
  | b0 :: rest =>
    if b0 < 0x80 then
      (utf8Decode rest).map (fun cs => Char.ofNat b0 :: cs)
    else if b0 < 0xC2 then none
    else if b0 ≤ 0xDF then
      match rest with
      | b1 :: rest2 =>
        if 0x80 ≤ b1 ∧ b1 ≤ 0xBF then
          (utf8Decode rest2).map (fun cs => Char.ofNat ((b0 - 0xC0) * 64 + (b1 - 0x80)) :: cs)
        else none
      | [] => none
    else if b0 ≤ 0xEF then
      match rest with
      | b1 :: b2 :: rest3 =>
        let lo1 := if b0 = 0xE0 then 0xA0 else 0x80
        let hi1 := if b0 = 0xED then 0x9F else 0xBF
        if lo1 ≤ b1 ∧ b1 ≤ hi1 ∧ 0x80 ≤ b2 ∧ b2 ≤ 0xBF then
          (utf8Decode rest3).map
            (fun cs => Char.ofNat ((b0 - 0xE0) * 4096 + (b1 - 0x80) * 64 + (b2 - 0x80)) :: cs)
        else none
      | _ => none
    else if b0 ≤ 0xF4 then
      match rest with
      | b1 :: b2 :: b3 :: rest4 =>
        let lo1 := if b0 = 0xF0 then 0x90 else 0x80
        let hi1 := if b0 = 0xF4 then 0x8F else 0xBF
        if lo1 ≤ b1 ∧ b1 ≤ hi1 ∧ 0x80 ≤ b2 ∧ b2 ≤ 0xBF ∧ 0x80 ≤ b3 ∧ b3 ≤ 0xBF then
          (utf8Decode rest4).map
            (fun cs =>
              Char.ofNat ((b0 - 0xF0) * 262144 + (b1 - 0x80) * 4096 + (b2 - 0x80) * 64 + (b3 - 0x80)) :: cs)
        else none
      | _ => none
    else none

/- ---------------------------------------------------------------------------
Context builder state (`SslContextBuilder` of the surrounding crate).
--------------------------------------------------------------------------- -/

/-- Modelled from the spec: the engine method selector (`SslMethod`). -/
inductive SslMethod where
  | tls
  | dtls
deriving DecidableEq

/-- Modelled from the spec: the mutable profile object (`SslContextBuilder`,
defined outside src/).  Only the state the connector code manipulates is
recorded. -/
structure SslContextBuilder where
  options : SslOpt → Bool
  mode : SslModeFlag → Bool
  cipher_list : Option (List Char)
  default_verify_paths : Bool
  verify_peer : Bool
  verify_callback_installed : Bool
  tmp_dh_set : Bool
  ecdh_auto : Bool
  tmp_ecdh_set : Bool

/-- Modelled from the spec: a freshly allocated context builder has none of the
connector's options or modes set. -/
def SslContextBuilder.new (_method : SslMethod) : SslContextBuilder :=
  { options := noFlags, mode := noFlags, cipher_list := none,
    default_verify_paths := false, verify_peer := false,
    verify_callback_installed := false, tmp_dh_set := false,
    ecdh_auto := false, tmp_ecdh_set := false }

/-- Modelled from the spec: `set_options` adds the given flags to the context's
option set (engine semantics of `SSL_CTX_set_options`; spec section 4.5 applies
the baseline options to every profile, so later additions accumulate). -/
def SslContextBuilder.set_options (c : SslContextBuilder) (opts : SslOpt → Bool) : SslContextBuilder :=
  { c with options := orFlags c.options opts }

/-- Modelled from the spec: `set_mode` adds the given mode flags
(`SSL_CTX_set_mode` semantics). -/
def SslContextBuilder.set_mode (c : SslContextBuilder) (m : SslModeFlag → Bool) : SslContextBuilder :=
  { c with mode := orFlags c.mode m }

/-- Modelled from the spec: `set_cipher_list` installs a cipher-suite selection
string (validation failures abort construction and are outside this model). -/
def SslContextBuilder.set_cipher_list (c : SslContextBuilder) (s : List Char) : SslContextBuilder :=
  { c with cipher_list := some s }

/-- Modelled from the spec: trust the platform's default certificate store. -/
def SslContextBuilder.set_default_verify_paths (c : SslContextBuilder) : SslContextBuilder :=
  { c with default_verify_paths := true }

/-- Modelled from the spec: install the fixed ephemeral DH parameter set. -/
def SslContextBuilder.set_tmp_dh (c : SslContextBuilder) : SslContextBuilder :=
  { c with tmp_dh_set := true }

/-- Modelled from the spec: enable native automatic curve selection. -/
def SslContextBuilder.set_ecdh_auto (c : SslContextBuilder) (b : Bool) : SslContextBuilder :=
  { c with ecdh_auto := b }

/-- Modelled from the spec: install an explicit named curve for ephemeral EC
key exchange. -/
def SslContextBuilder.set_tmp_ecdh (c : SslContextBuilder) : SslContextBuilder :=
  { c with tmp_ecdh_set := true }

/-- A finalized, immutable shared context. -/
structure SslContext where
  inner : SslContextBuilder

/-- Finalization of a builder into an immutable context. -/
def SslContextBuilder.build (c : SslContextBuilder) : SslContext := ⟨c⟩

/- ---------------------------------------------------------------------------
Per-connection handshake object (`Ssl`) state touched by the connector.
--------------------------------------------------------------------------- -/

/-- Modelled from the spec: the per-connection handshake object.  It records
the SNI hostname, the native verifier's parameters (host flags, expected IP or
host) and the ex-data slot `verify::HOSTNAME_IDX` used by the callback path. -/
structure Ssl where
  ctx : SslContext
  hostname : Option (List Char)
  hostflags_no_partial_wildcards : Bool
  param_ip : Option IpAddr
  param_host : Option (List Char)
  ex_data_hostname : Option (List Char)

/-- Modelled from the spec: `Ssl::new` derives a fresh handshake object from a
shared context, with no hostname attached and empty ex-data. -/
def Ssl.new (c : SslContext) : Ssl :=
  { ctx := c, hostname := none, hostflags_no_partial_wildcards := false,
    param_ip := none, param_host := none, ex_data_hostname := none }

/-- Modelled from the spec: attach the domain for protocol-level server name
indication. -/
def Ssl.set_hostname (s : Ssl) (domain : List Char) : Ssl :=
  { s with hostname := some domain }

/-- Modelled from the spec: write the Verification Context Slot
(`set_ex_data(*verify::HOSTNAME_IDX, domain)`). -/
def Ssl.set_ex_data_hostname (s : Ssl) (domain : List Char) : Ssl :=
  { s with ex_data_hostname := some domain }

/- ---------------------------------------------------------------------------
Certificate data (read-only accessor view, per spec section 6).
--------------------------------------------------------------------------- -/

/-- Modelled from the spec: one subject-alternative-name entry; `dnsname()`
yields text only for DNS-name entries, `ipaddress()` bytes only for IP
entries; other kinds yield neither. -/
inductive GeneralName where
  | dns (name : List Char)
  | ip (bytes : List Nat)
  | other
deriving DecidableEq

/-- Accessor `GeneralName::dnsname`. -/
def GeneralName.dnsname : GeneralName → Option (List Char)
  | GeneralName.dns n => some n
  | _ => none

/-- Accessor `GeneralName::ipaddress`. -/
def GeneralName.ipaddress : GeneralName → Option (List Nat)
  | GeneralName.ip b => some b
  | _ => none

/-- The numeric id of the common-name field (`Nid::COMMONNAME`). -/
def Nid.COMMONNAME : Nat := 13

/-- Modelled from the spec: one entry of the certificate's subject field —
a numeric field id and raw bytes. -/
structure X509NameEntry where
  nid : Nat
  data : List Nat
deriving DecidableEq

/-- Modelled from the spec: the subject field, an ordered entry sequence. -/
structure X509Name where
  entries : List X509NameEntry
deriving DecidableEq

/-- Accessor `X509NameRef::entries_by_nid`: the entries with the given id, in
order. -/
def X509Name.entries_by_nid (n : X509Name) (nid : Nat) : List X509NameEntry :=
  n.entries.filter (fun e => decide (e.nid = nid))

/-- Modelled from the spec: the read-only certificate view — an optional
subject-alternative-name sequence (present even when empty) and the subject
field. -/
structure X509 where
  subject_alt_names : Option (List GeneralName)
  subject_name : X509Name
deriving DecidableEq

/-- Modelled from the spec: the chain-verification store context — the chain
position (`error_depth`), the certificate under inspection, the associated
handshake object (retrievable via `ssl_idx` ex-data, when present) and the
settable terminal verification-result code. -/
structure X509StoreContext where
  error_depth : Nat
  current_cert : Option X509
  ssl : Option Ssl
  error : Nat

namespace X509VerifyResult

/-- The distinguished application-verification-failure code
(`X509VerifyResult::APPLICATION_VERIFICATION`). -/
def APPLICATION_VERIFICATION : Nat := 50

end X509VerifyResult

/- ---------------------------------------------------------------------------
`mod verify` — the callback-driven hostname verifier (connector.rs 333-508).
--------------------------------------------------------------------------- -/

/-- Indices (in order) of the occurrences of a character, starting at `i`
(embedding of the `str::match_indices` iterator). -/
def idxsOfAux (c : Char) : List Char → Nat → List Nat
  | [], _ => []
  | x :: xs, i => if x == c then i :: idxsOfAux c xs (i + 1) else idxsOfAux c xs (i + 1)

/-- Indices of all occurrences of a character (`str::match_indices`). -/
def idxsOf (c : Char) (s : List Char) : List Nat :=
  idxsOfAux c s 0

namespace verify

/-- connector.rs 439-500: RFC 6125-style wildcard matching; `none` means the
wildcard rules are inapplicable and the caller must fall back to exact
comparison. -/
def matches_wildcard (pattern hostname : List Char) : Option Bool :=
  if ("xn--".toList).isPrefixOf pattern then none
  else
    match pattern.findIdx? (fun c => c == '*') with
    | none => none
    | some wildcard_location =>
      match (idxsOf '.' pattern).head? with
      | none => none
      | some wildcard_end =>
        match (idxsOf '.' pattern).tail.head? with
        | none => none
        | some _ =>
          if wildcard_end < wildcard_location then none
          else
            match hostname.findIdx? (fun c => c == '.') with
            | none => none
            | some hostname_label_end =>
              if pattern.drop wildcard_end ≠ hostname.drop hostname_label_end then some false
              else if ¬ ((pattern.take wildcard_location).isPrefixOf
                  (hostname.take hostname_label_end)) then some false
              else if ¬ (((pattern.take wildcard_end).drop (wildcard_location + 1)).isSuffixOf
                  ((hostname.take hostname_label_end).drop
                    (pattern.take wildcard_location).length)) then some false
              else some true

/-- connector.rs 429-434: strip one trailing '.' (inlined in `matches_dns`,
named here so the normalization can be reasoned about). -/
def strip_trailing_dot (s : List Char) : List Char :=
  if s.getLast? = some '.' then s.dropLast else s

/-- connector.rs 427-437: normalize both sides by stripping one trailing '.',
then wildcard-match, falling back to exact comparison when inapplicable. -/
def matches_dns (pattern0 hostname0 : List Char) : Bool :=
  let pattern := strip_trailing_dot pattern0
  let hostname := strip_trailing_dot hostname0
  match matches_wildcard pattern hostname with
  | some m => m
  | none => decide (pattern = hostname)

/-- connector.rs 502-507: exact byte-for-byte comparison against the address's
canonical octet representation. -/
def matches_ip (expected : IpAddr) (actual : List Nat) : Bool :=
  decide (actual = expected.octets)

/-- connector.rs 380-403: iterate SAN entries in order; IP domains are checked
only against IP entries, DNS domains only against DNS-name entries. -/
def verify_subject_alt_names (domain : List Char) (names : List GeneralName) : Bool :=
  let ip := parseIp domain
  names.any (fun name =>
    match ip with
    | some ipa =>
      match name.ipaddress with
      | some actual => matches_ip ipa actual
      | none => false
    | none =>
      match name.dnsname with
      | some pattern => matches_dns pattern domain
      | none => false)

/-- connector.rs 405-425: CN fallback — first common-name entry, decoded as
UTF-8; IP domains require the CN text to parse to an equal address, DNS
domains use `matches_dns`. -/
def verify_subject_name (domain : List Char) (subject_name : X509Name) : Bool :=
  match (subject_name.entries_by_nid Nid.COMMONNAME).head? with
  | some entry =>
    match utf8Decode entry.data with
    | none => false
    | some pattern =>
      match parseIp domain with
      | some ipd =>
        match parseIp pattern with
        | some ipp => decide (ipp = ipd)
        | none => false
      | none => matches_dns pattern domain
  | none => false

/-- connector.rs 373-378: SAN presence routes to SAN verification, absence to
the subject-name fallback. -/
def verify_hostname (domain : List Char) (cert : X509) : Bool :=
  match cert.subject_alt_names with
  | some names => verify_subject_alt_names domain names
  | none => verify_subject_name domain cert.subject_name

/-- connector.rs 350-371: the chain-verification callback; acts only at depth
0 with preverification passed, and sets the application-verification-failure
code on rejection.  Returns the callback's boolean result together with the
(possibly updated) store context. -/
def verify_callback (preverify_ok : Bool) (x509_ctx : X509StoreContext) :
    Bool × X509StoreContext :=
  if preverify_ok = false ∨ x509_ctx.error_depth ≠ 0 then (preverify_ok, x509_ctx)
  else
    let ok :=
      match x509_ctx.current_cert, x509_ctx.ssl.bind (fun s => s.ex_data_hostname) with
      | some x509, some domain => verify_hostname domain x509
      | _, _ => true
    if ok = false then
      (ok, { x509_ctx with error := X509VerifyResult.APPLICATION_VERIFICATION })
    else (ok, x509_ctx)

end verify

/- ---------------------------------------------------------------------------
Configuration profile builders (connector.rs 12-39, 51-94, 190-304).
--------------------------------------------------------------------------- -/

/-- connector.rs 12-39: shared baseline context.  `version_number` is the
linked engine's version (`version::number()`), passed explicitly since the
model has no global state. -/
def ctx (version_number : Nat) (method : SslMethod) : SslContextBuilder :=
  let c := SslContextBuilder.new method
  let opts := orFlags SslOptions.ALL
    (orFlags SslOptions.NO_COMPRESSION
      (orFlags SslOptions.NO_SSLV2
        (orFlags SslOptions.NO_SSLV3
          (orFlags SslOptions.SINGLE_DH_USE
            (orFlags SslOptions.SINGLE_ECDH_USE SslOptions.CIPHER_SERVER_PREFERENCE)))))
  let opts := andFlags opts (notFlags SslOptions.DONT_INSERT_EMPTY_FRAGMENTS)
  let c := c.set_options opts
  let mode := orFlags SslMode.AUTO_RETRY
    (orFlags SslMode.ACCEPT_MOVING_WRITE_BUFFER SslMode.ENABLE_PARTIAL_WRITE)
  let mode := if 0x1001080 ≤ version_number then orFlags mode SslMode.RELEASE_BUFFERS else mode
  c.set_mode mode

/-- The compile-time curve-setup strategy selection (connector.rs 286-304). -/
inductive CurveCfg where
  | ossl110
  | ossl102_or_libressl
  | older
deriving DecidableEq

/-- connector.rs 286-304: curve setup — a no-op on 1.1.0, native auto-selection
on 1.0.2/libressl, an explicit prime256v1 curve otherwise. -/
def setup_curves (cfg : CurveCfg) (c : SslContextBuilder) : SslContextBuilder :=
  match cfg with
  | CurveCfg.ossl110 => c
  | CurveCfg.ossl102_or_libressl => c.set_ecdh_auto true
  | CurveCfg.older => c.set_tmp_ecdh

/-- connector.rs 306-331: verification dispatch at build time — `native = true`
uses the engine's built-in matcher, otherwise the callback strategy is
registered. -/
def setup_verify (native : Bool) (c : SslContextBuilder) : SslContextBuilder :=
  if native then { c with verify_peer := true }
  else { c with verify_peer := true, verify_callback_installed := true }

/-- connector.rs 312-331: per-session hostname registration — the native path
sets `NO_PARTIAL_WILDCARDS` and the expected IP or host on the verify
parameters; the callback path writes the Verification Context Slot. -/
def setup_verify_hostname (native : Bool) (s : Ssl) (domain : List Char) : Ssl :=
  if native then
    let s := { s with hostflags_no_partial_wildcards := true }
    match parseIp domain with
    | some ip => { s with param_ip := some ip }
    | none => { s with param_host := some domain }
  else s.set_ex_data_hostname domain

/-- The client connector (a frozen shared context). -/
structure SslConnector where
  inner : SslContext

/-- A builder for `SslConnector`s. -/
structure SslConnectorBuilder where
  inner : SslContextBuilder

/-- connector.rs 55-64: the client profile — baseline context, platform trust
store, restricted cipher list, hostname verification installed. -/
def SslConnector.builder (version_number : Nat) (native : Bool) (method : SslMethod) :
    SslConnectorBuilder :=
  let c := ctx version_number method
  let c := c.set_default_verify_paths
  let c := c.set_cipher_list
    (("DEFAULT:!aNULL:!eNULL:!MD5:!3DES:!DES:!RC4:!IDEA:!SEED:!aDSS:!SRP:!PSK").toList)
  let c := setup_verify native c
  ⟨c⟩

/-- connector.rs 91-93. -/
def SslConnectorBuilder.build (b : SslConnectorBuilder) : SslConnector :=
  ⟨b.inner.build⟩

/-- A builder for `SslAcceptor`s. -/
structure SslAcceptorBuilder where
  inner : SslContextBuilder

/-- connector.rs 198-229: the "intermediate" server profile. -/
def SslAcceptor.mozilla_intermediate (version_number : Nat) (ossl111 : Bool)
    (curves : CurveCfg) (method : SslMethod) : SslAcceptorBuilder :=
  let c := ctx version_number method
  let c := if ossl111 then c.set_options SslOptions.NO_TLSV1_3 else c
  let c := c.set_tmp_dh
  let c := setup_curves curves c
  let c := c.set_cipher_list
    (("ECDHE-ECDSA-CHACHA20-POLY1305:ECDHE-RSA-CHACHA20-POLY1305:ECDHE-ECDSA-AES128-GCM-SHA256:ECDHE-RSA-AES128-GCM-SHA256:ECDHE-ECDSA-AES256-GCM-SHA384:ECDHE-RSA-AES256-GCM-SHA384:DHE-RSA-AES128-GCM-SHA256:DHE-RSA-AES256-GCM-SHA384:ECDHE-ECDSA-AES128-SHA256:ECDHE-RSA-AES128-SHA256:ECDHE-ECDSA-AES128-SHA:ECDHE-RSA-AES256-SHA384:ECDHE-RSA-AES128-SHA:ECDHE-ECDSA-AES256-SHA384:ECDHE-ECDSA-AES256-SHA:ECDHE-RSA-AES256-SHA:DHE-RSA-AES128-SHA256:DHE-RSA-AES128-SHA:DHE-RSA-AES256-SHA256:DHE-RSA-AES256-SHA:ECDHE-ECDSA-DES-CBC3-SHA:ECDHE-RSA-DES-CBC3-SHA:EDH-RSA-DES-CBC3-SHA:AES128-GCM-SHA256:AES256-GCM-SHA384:AES128-SHA256:AES256-SHA256:AES128-SHA:AES256-SHA:DES-CBC3-SHA:!DSS").toList)
  ⟨c⟩

/-- connector.rs 237-250: the "modern" server profile. -/
def SslAcceptor.mozilla_modern (version_number : Nat) (ossl111 : Bool)
    (curves : CurveCfg) (method : SslMethod) : SslAcceptorBuilder :=
  let c := ctx version_number method
  let c := c.set_options (orFlags SslOptions.NO_TLSV1 SslOptions.NO_TLSV1_1)
  let c := if ossl111 then c.set_options SslOptions.NO_TLSV1_3 else c
  let c := setup_curves curves c
  let c := c.set_cipher_list
    (("ECDHE-ECDSA-AES256-GCM-SHA384:ECDHE-RSA-AES256-GCM-SHA384:ECDHE-ECDSA-CHACHA20-POLY1305:ECDHE-RSA-CHACHA20-POLY1305:ECDHE-ECDSA-AES128-GCM-SHA256:ECDHE-RSA-AES128-GCM-SHA256:ECDHE-ECDSA-AES256-SHA384:ECDHE-RSA-AES256-SHA384:ECDHE-ECDSA-AES128-SHA256:ECDHE-RSA-AES128-SHA256").toList)
  ⟨c⟩

/-- connector.rs 267-269. -/
def SslAcceptorBuilder.build (b : SslAcceptorBuilder) : SslContext :=
  b.inner.build

/- ---------------------------------------------------------------------------
Session configuration (connector.rs 77-83, 110-166).
--------------------------------------------------------------------------- -/

/-- connector.rs 111-115: per-session configuration — the handshake object and
the two independent toggles. -/
structure ConnectConfiguration where
  ssl : Ssl
  sni : Bool
  verify_hostname : Bool

/-- connector.rs 77-83: derive a fresh per-session configuration; both toggles
default to enabled. -/
def SslConnector.configure (c : SslConnector) : ConnectConfiguration :=
  { ssl := Ssl.new c.inner, sni := true, verify_hostname := true }

/-- connector.rs 127-129. -/
def ConnectConfiguration.set_use_server_name_indication (c : ConnectConfiguration)
    (use_sni : Bool) : ConnectConfiguration :=
  { c with sni := use_sni }

/-- connector.rs 146-148. -/
def ConnectConfiguration.set_verify_hostname (c : ConnectConfiguration)
    (v : Bool) : ConnectConfiguration :=
  { c with verify_hostname := v }

/-- connector.rs 153-166: at connect time, attach the domain for SNI if
enabled, register it for hostname verification if enabled, then hand the
handshake object to the external handshake collaborator.  The model returns
the handshake object exactly as the collaborator receives it. -/
def ConnectConfiguration.connect (native : Bool) (c : ConnectConfiguration)
    (domain : List Char) : Ssl :=
  let s := c.ssl
  let s := if c.sni then s.set_hostname domain else s
  let s := if c.verify_hostname then setup_verify_hostname native s domain else s
  s

/-- The domain is registered with the dispatch strategy: on the native path the
verify parameters carry an expected IP or host, on the callback path the
Verification Context Slot is written. -/
def hostnameRegistered (native : Bool) (s : Ssl) : Prop :=
  if native then s.param_ip ≠ none ∨ s.param_host ≠ none
  else s.ex_data_hostname ≠ none

/-- The spec's list of conditions under which wildcard matching is
inapplicable: ACE-prefixed pattern, no '*', fewer than two dots in the pattern
(the spec's "`*.com` → `None` (fewer than two dots)"), first '*' not located
within the first '.'-separated label, or a hostname with no label boundary. -/
def wildcardNone (pattern hostname : List Char) : Prop :=
  ("xn--".toList).isPrefixOf pattern = true ∨
  ('*' ∉ pattern) ∨
  pattern.count '.' < 2 ∨
  (∃ wl we, pattern.findIdx? (fun c => c == '*') = some wl ∧
    pattern.findIdx? (fun c => c == '.') = some we ∧ we ≤ wl) ∨
  ('.' ∉ hostname)

/-- The baseline option/mode guarantees of spec section 4.5, as a predicate on
a built-up context builder (parameterized by the engine version that gates
`RELEASE_BUFFERS`). -/
def baselineOk (b : SslContextBuilder) (version_number : Nat) : Prop :=
  b.options SslOpt.NO_COMPRESSION = true ∧
  b.options SslOpt.NO_SSLV2 = true ∧
  b.options SslOpt.NO_SSLV3 = true ∧
  b.options SslOpt.SINGLE_DH_USE = true ∧
  b.options SslOpt.SINGLE_ECDH_USE = true ∧
  b.options SslOpt.CIPHER_SERVER_PREFERENCE = true ∧
  b.mode SslModeFlag.AUTO_RETRY = true ∧
  b.mode SslModeFlag.ACCEPT_MOVING_WRITE_BUFFER = true ∧
  b.mode SslModeFlag.ENABLE_PARTIAL_WRITE = true ∧
  (b.mode SslModeFlag.RELEASE_BUFFERS = true ↔ 0x1001080 ≤ version_number)

/-- A sample frozen context, for concrete instantiations. -/
def sampleCtx : SslContext := SslContextBuilder.build (SslContextBuilder.new SslMethod.tls)

/-- A sample handshake object carrying a registered hostname in its
Verification Context Slot. -/
def sampleSsl (d : List Char) : Ssl := (Ssl.new sampleCtx).set_ex_data_hostname d

/-- A sample store context at leaf depth: a certificate with a present, empty
SAN sequence and a handshake object with a registered domain. -/
def c4SampleCtx : X509StoreContext :=
  ⟨0, some ⟨some [], ⟨[]⟩⟩, some (sampleSsl (("a").toList)), 0⟩

/-- ASCII bytes of `"example.com"`, a sample common-name value. -/
def cnBytes : List Nat := (("example.com").toList).map Char.toNat

/-- A sample subject field whose only entry is a common name. -/
def sampleSubject : X509Name := ⟨[⟨Nid.COMMONNAME, cnBytes⟩]⟩


/- ---------------------------------------------------------------------------
Helper lemmas about the `match_indices` embedding.
--------------------------------------------------------------------------- -/

theorem idxsOfAux_head? (c : Char) (s : List Char) (i : Nat) :
    (idxsOfAux c s i).head? = s.findIdx? (fun x => x == c) i := by
  induction s generalizing i with
  | nil => rfl
  | cons x xs ih =>
    by_cases h : (x == c) = true
    · simp [idxsOfAux, h, List.findIdx?_cons]
    · simp [idxsOfAux, h, List.findIdx?_cons, ih]

theorem idxsOf_head? (c : Char) (s : List Char) :
    (idxsOf c s).head? = s.findIdx? (fun x => x == c) :=
  idxsOfAux_head? c s 0

theorem idxsOfAux_length (c : Char) (s : List Char) (i : Nat) :
    (idxsOfAux c s i).length = s.count c := by
  induction s generalizing i with
  | nil => rfl
  | cons x xs ih =>
    by_cases h : (x == c) = true <;> simp [idxsOfAux, h, List.count_cons, ih]

theorem idxsOf_length (c : Char) (s : List Char) :
    (idxsOf c s).length = s.count c :=
  idxsOfAux_length c s 0

theorem findIdxChar_eq_none_iff (c : Char) (s : List Char) :
    s.findIdx? (fun x => x == c) = none ↔ c ∉ s := by
  rw [List.findIdx?_eq_none_iff]
  constructor
  · intro h hm
    have := h c hm
    simp at this
  · intro h x hx
    rcases eq_or_ne x c with rfl | hne
    · exact absurd hx h
    · simp [hne]

theorem mem_of_findIdxChar_eq_some {c : Char} {s : List Char} {i : Nat}
    (h : s.findIdx? (fun x => x == c) = some i) : c ∈ s := by
  rw [List.findIdx?_eq_some_iff_getElem] at h
  obtain ⟨hlt, hp, -⟩ := h
  simp only [beq_iff_eq] at hp
  exact hp ▸ List.getElem_mem hlt

theorem findIdxChar_star_ne_dot {s : List Char} {i j : Nat}
    (h1 : s.findIdx? (fun x => x == '*') = some i)
    (h2 : s.findIdx? (fun x => x == '.') = some j) : i ≠ j := by
  intro he
  rw [List.findIdx?_eq_some_iff_getElem] at h1 h2
  obtain ⟨hlt1, hp1, -⟩ := h1
  obtain ⟨hlt2, hp2, -⟩ := h2
  subst he
  simp only [beq_iff_eq] at hp1 hp2
  rw [hp1] at hp2
  exact absurd hp2 (by decide)

/- ---------------------------------------------------------------------------
Claims.
--------------------------------------------------------------------------- -/

/-- Claim C1: whenever SAN extraction yields a present entry sequence — even
an empty one — the verification outcome equals the SAN verdict and is
independent of the subject name; the CN fallback is taken only when no SAN
sequence exists at all. -/
theorem c1_san_overrides_cn (domain : List Char) (names : List GeneralName)
    (s1 s2 : X509Name) :
    verify.verify_hostname domain ⟨some names, s1⟩ =
      verify.verify_subject_alt_names domain names ∧
    verify.verify_hostname domain ⟨some names, s1⟩ =
      verify.verify_hostname domain ⟨some names, s2⟩ ∧
    verify.verify_hostname domain ⟨none, s1⟩ = verify.verify_subject_name domain s1 :=
  ⟨rfl, rfl, rfl⟩

/-- Claim C3: the five reference evaluations of `matches_wildcard`. -/
theorem c3_wildcard_reference_cases :
    verify.matches_wildcard (("*.example.com").toList) (("foo.example.com").toList) = some true ∧
    verify.matches_wildcard (("*.example.com").toList) (("foo.bar.example.com").toList) = some false ∧
    verify.matches_wildcard (("foo.*.example.com").toList) (("foo.bar.example.com").toList) = none ∧
    verify.matches_wildcard (("*.com").toList) (("example.com").toList) = none ∧
    verify.matches_wildcard (("xn--*.example.com").toList) (("xn--a.example.com").toList) = none := by
  refine ⟨by decide, by decide, by decide, by decide, by decide⟩

/-- Claim C6, counterexample: stripping one trailing dot is not idempotent on
every string — on `"a.."` stripping twice differs from stripping once, so the
claim's universally quantified idempotence statement is false. -/
theorem c6_counterexample :
    ¬ (verify.strip_trailing_dot (verify.strip_trailing_dot (("a..").toList)) =
       verify.strip_trailing_dot (("a..").toList)) := by
  decide

/-- Claim C6 (amended): `matches_dns("example.com.", "example.com")` is true,
and the trailing-dot normalization is idempotent on every string that does not
end in two consecutive dots. -/
theorem c6_dns_normalization :
    verify.matches_dns (("example.com.").toList) (("example.com").toList) = true ∧
    ∀ s : List Char, (['.', '.'].isSuffixOf s) = false →
      verify.strip_trailing_dot (verify.strip_trailing_dot s) =
        verify.strip_trailing_dot s := by
  refine ⟨by decide, ?_⟩
  intro s h
  by_cases h1 : s.getLast? = some '.'
  · obtain ⟨t, rfl⟩ := List.getLast?_eq_some_iff.mp h1
    have e1 : verify.strip_trailing_dot (t ++ ['.']) = t := by
      rw [verify.strip_trailing_dot, if_pos h1, List.dropLast_concat]
    rw [e1, verify.strip_trailing_dot]
    rcases h2 : t.getLast? with - | c
    · rw [if_neg (by simp [h2])]
    · rcases eq_or_ne c '.' with rfl | hc
      · exfalso
        obtain ⟨u, rfl⟩ := List.getLast?_eq_some_iff.mp h2
        have hs : ['.', '.'] <:+ (u ++ ['.']) ++ ['.'] := ⟨u, by simp⟩
        rw [← List.isSuffixOf_iff_suffix] at hs
        rw [h] at hs
        exact Bool.false_ne_true hs
      · rw [if_neg (by simp [h2, hc])]
  · have e1 : verify.strip_trailing_dot s = s := by
      rw [verify.strip_trailing_dot, if_neg h1]
    rw [e1, e1]

/-- Claim C6, witness for the amended statement at `"example.com."`. -/
theorem c6_witness :
    verify.strip_trailing_dot (verify.strip_trailing_dot (("example.com.").toList)) =
      verify.strip_trailing_dot (("example.com.").toList) :=
  c6_dns_normalization.2 (("example.com.").toList) (by decide)

/-- Claim C2: for an IP domain, SAN verification accepts exactly when some IP
entry's bytes equal the address's canonical octet representation (4 bytes for
v4, 16 for v6); for a DNS domain it accepts exactly when some DNS-name entry
matches — entries of the other kind are never compared, so a certificate with
only DNS entries is rejected for an IP domain. -/
theorem c2_san_ip_dispatch (domain : List Char) (names : List GeneralName) :
    (∀ ip, parseIp domain = some ip →
      ((verify.verify_subject_alt_names domain names = true ↔
          ∃ g ∈ names, GeneralName.ipaddress g = some ip.octets) ∧
        ip.octets.length = (match ip with
          | IpAddr.V4 _ _ _ _ => 4
          | IpAddr.V6 _ _ _ _ _ _ _ _ => 16))) ∧
    (parseIp domain = none →
      (verify.verify_subject_alt_names domain names = true ↔
        ∃ g ∈ names, ∃ pat, GeneralName.dnsname g = some pat ∧
          verify.matches_dns pat domain = true)) := by
  constructor
  · intro ip hp
    constructor
    · simp only [verify.verify_subject_alt_names, hp, List.any_eq_true]
      constructor
      · rintro ⟨g, hg, hmatch⟩
        refine ⟨g, hg, ?_⟩
        cases g with
        | dns n => simp [GeneralName.ipaddress] at hmatch
        | ip b =>
          simp only [GeneralName.ipaddress, verify.matches_ip, decide_eq_true_eq] at hmatch
          simp [GeneralName.ipaddress, hmatch]
        | other => simp [GeneralName.ipaddress] at hmatch
      · rintro ⟨g, hg, hip⟩
        refine ⟨g, hg, ?_⟩
        cases g with
        | dns n => simp [GeneralName.ipaddress] at hip
        | ip b =>
          simp only [GeneralName.ipaddress, Option.some.injEq] at hip
          simp [GeneralName.ipaddress, verify.matches_ip, hip]
        | other => simp [GeneralName.ipaddress] at hip
    · cases ip <;> simp [IpAddr.octets]
  · intro hp
    simp only [verify.verify_subject_alt_names, hp, List.any_eq_true]
    constructor
    · rintro ⟨g, hg, hmatch⟩
      refine ⟨g, hg, ?_⟩
      cases g with
      | dns n =>
        simp only [GeneralName.dnsname] at hmatch ⊢
        exact ⟨n, rfl, hmatch⟩
      | ip b => simp [GeneralName.dnsname] at hmatch
      | other => simp [GeneralName.dnsname] at hmatch
    · rintro ⟨g, hg, pat, hpat, hdns⟩
      refine ⟨g, hg, ?_⟩
      cases g with
      | dns n =>
        simp only [GeneralName.dnsname, Option.some.injEq] at hpat
        simp [GeneralName.dnsname, hpat, hdns]
      | ip b => simp [GeneralName.dnsname] at hpat
      | other => simp [GeneralName.dnsname] at hpat

/-- Claim C2, witness: the IP domain `127.0.0.1` is accepted against a SAN
sequence whose IP entry carries the canonical four octets (the DNS entry with
the same text plays no role). -/
theorem c2_witness :
    verify.verify_subject_alt_names (("127.0.0.1").toList)
      [GeneralName.dns (("127.0.0.1").toList), GeneralName.ip [127, 0, 0, 1]] = true := by
  refine (((c2_san_ip_dispatch (("127.0.0.1").toList)
    [GeneralName.dns (("127.0.0.1").toList), GeneralName.ip [127, 0, 0, 1]]).1
      (IpAddr.V4 127 0 0 1) (by decide)).1).mpr ?_
  exact ⟨GeneralName.ip [127, 0, 0, 1], by decide, by decide⟩

/-- Claim C7: on the CN-fallback path, a missing common-name entry or
undecodable CN bytes reject; with a decoded CN and an IP domain the result is
exactly "the CN text parses to the same address"; with a DNS domain the result
is `matches_dns` of the CN text. -/
theorem c7_cn_fallback (domain : List Char) (subj : X509Name) :
    ((subj.entries_by_nid Nid.COMMONNAME).head? = none →
      verify.verify_subject_name domain subj = false) ∧
    (∀ e, (subj.entries_by_nid Nid.COMMONNAME).head? = some e →
      utf8Decode e.data = none → verify.verify_subject_name domain subj = false) ∧
    (∀ e txt ip, (subj.entries_by_nid Nid.COMMONNAME).head? = some e →
      utf8Decode e.data = some txt → parseIp domain = some ip →
      (verify.verify_subject_name domain subj = true ↔ parseIp txt = some ip)) ∧
    (∀ e txt, (subj.entries_by_nid Nid.COMMONNAME).head? = some e →
      utf8Decode e.data = some txt → parseIp domain = none →
      verify.verify_subject_name domain subj = verify.matches_dns txt domain) := by
  refine ⟨?_, ?_, ?_, ?_⟩
  · intro h
    simp [verify.verify_subject_name, h]
  · intro e h1 h2
    simp [verify.verify_subject_name, h1, h2]
  · intro e txt ip h1 h2 h3
    simp only [verify.verify_subject_name, h1, h2, h3]
    rcases h4 : parseIp txt with - | p <;> simp [h4]
  · intro e txt h1 h2 h3
    simp [verify.verify_subject_name, h1, h2, h3]

/-- Claim C7, witness: a subject whose CN is `example.com` against the DNS
domain `example.com` evaluates to the `matches_dns` verdict. -/
theorem c7_witness :
    verify.verify_subject_name (("example.com").toList) sampleSubject =
      verify.matches_dns (("example.com").toList) (("example.com").toList) :=
  (c7_cn_fallback (("example.com").toList) sampleSubject).2.2.2
    ⟨Nid.COMMONNAME, cnBytes⟩ (("example.com").toList) (by decide) (by decide) (by decide)

/-- Claim C8: at leaf depth with preverification passed, if the current
certificate or the registered domain cannot be retrieved, the callback
accepts (returns true, context untouched) rather than rejecting. -/
theorem c8_missing_data_accepts (c : X509StoreContext)
    (hd : c.error_depth = 0)
    (hm : c.current_cert = none ∨ c.ssl.bind (fun s => s.ex_data_hostname) = none) :
    verify.verify_callback true c = (true, c) := by
  rw [verify.verify_callback, if_neg (by simp [hd])]
  rcases hm with h | h
  · simp [h]
  · rcases hc : c.current_cert with - | cert <;> simp [h, hc]

/-- Claim C8, witness: a leaf-depth context with no retrievable certificate or
domain is accepted unchanged. -/
theorem c8_witness :
    verify.verify_callback true ⟨0, none, none, 0⟩ = (true, ⟨0, none, none, 0⟩) :=
  c8_missing_data_accepts ⟨0, none, none, 0⟩ rfl (Or.inl rfl)

/-- Claim C4: the callback passes the preverification result through whenever
it is already false or the depth is nonzero; at depth 0 with preverification
true and retrievable certificate and domain, it returns the hostname verdict,
setting the application-verification-failure code on rejection. -/
theorem c4_callback_dispatch (pre : Bool) (c : X509StoreContext) :
    (pre = false ∨ c.error_depth ≠ 0 → verify.verify_callback pre c = (pre, c)) ∧
    (pre = true → c.error_depth = 0 →
      ∀ cert domain, c.current_cert = some cert →
        c.ssl.bind (fun s => s.ex_data_hostname) = some domain →
        (verify.verify_hostname domain cert = true →
          verify.verify_callback pre c = (true, c)) ∧
        (verify.verify_hostname domain cert = false →
          verify.verify_callback pre c =
            (false, { c with error := X509VerifyResult.APPLICATION_VERIFICATION }))) := by
  constructor
  · intro h
    rw [verify.verify_callback, if_pos h]
  · intro hp hd cert domain hc hs
    subst hp
    constructor
    · intro hv
      rw [verify.verify_callback, if_neg (by simp [hd])]
      simp [hc, hs, hv]
    · intro hv
      rw [verify.verify_callback, if_neg (by simp [hd])]
      simp [hc, hs, hv]

/-- Claim C4, witness: pass-through of a failed preverification at nonzero
depth, and rejection with the distinguished error code for a leaf certificate
whose empty SAN sequence matches nothing. -/
theorem c4_witness :
    verify.verify_callback false ⟨1, none, none, 0⟩ = (false, ⟨1, none, none, 0⟩) ∧
    verify.verify_callback true c4SampleCtx =
      (false, { c4SampleCtx with error := X509VerifyResult.APPLICATION_VERIFICATION }) := by
  constructor
  · exact (c4_callback_dispatch false ⟨1, none, none, 0⟩).1 (Or.inl rfl)
  · exact ((c4_callback_dispatch true c4SampleCtx).2 rfl rfl ⟨some [], ⟨[]⟩⟩
      (("a").toList) rfl (by decide)).2 (by decide)

set_option maxRecDepth 16384 in
/-- Claim C9: every profile constructor — the client builder and both server
builders — yields options containing no-compression, no-SSLv2, no-SSLv3,
single-use DH, single-use ECDH and server cipher-order preference, a mode
containing automatic retry, moving-write-buffer acceptance and partial-write
tolerance, and the buffer-release mode flag exactly when the engine version is
at least 0x1001080. -/
theorem c9_profile_baseline (version_number : Nat) (native ossl111 : Bool)
    (curves : CurveCfg) (method : SslMethod) :
    baselineOk (SslConnector.builder version_number native method).inner version_number ∧
    baselineOk (SslAcceptor.mozilla_intermediate version_number ossl111 curves method).inner
      version_number ∧
    baselineOk (SslAcceptor.mozilla_modern version_number ossl111 curves method).inner
      version_number := by
  by_cases h : 0x1001080 ≤ version_number <;>
    cases native <;> cases ossl111 <;> cases curves <;>
      simp [baselineOk, SslConnector.builder, SslAcceptor.mozilla_intermediate,
        SslAcceptor.mozilla_modern, ctx, setup_verify, setup_curves,
        SslContextBuilder.new, SslContextBuilder.set_options, SslContextBuilder.set_mode,
        SslContextBuilder.set_cipher_list, SslContextBuilder.set_default_verify_paths,
        SslContextBuilder.set_tmp_dh, SslContextBuilder.set_ecdh_auto,
        SslContextBuilder.set_tmp_ecdh, orFlags, andFlags, notFlags, oneFlag, noFlags,
        SslOptions.ALL, SslOptions.NO_COMPRESSION, SslOptions.NO_SSLV2, SslOptions.NO_SSLV3,
        SslOptions.SINGLE_DH_USE, SslOptions.SINGLE_ECDH_USE,
        SslOptions.CIPHER_SERVER_PREFERENCE, SslOptions.DONT_INSERT_EMPTY_FRAGMENTS,
        SslOptions.NO_TLSV1, SslOptions.NO_TLSV1_1, SslOptions.NO_TLSV1_3,
        SslMode.AUTO_RETRY, SslMode.ACCEPT_MOVING_WRITE_BUFFER, SslMode.ENABLE_PARTIAL_WRITE,
        SslMode.RELEASE_BUFFERS, h]

/-- Claim C10: `configure` yields both toggles enabled, and at connect time
the domain is attached to the handshake object for name indication exactly
when the SNI toggle is on, and registered with the dispatch strategy exactly
when the verify-hostname toggle is on, in the state handed to the handshake
collaborator. -/
theorem c10_configure_connect (conn : SslConnector) (sni vh native : Bool)
    (domain : List Char) :
    (conn.configure).sni = true ∧ (conn.configure).verify_hostname = true ∧
    ((((((conn.configure).set_use_server_name_indication sni).set_verify_hostname vh).connect
        native domain).hostname = some domain) ↔ sni = true) ∧
    (hostnameRegistered native
        (((((conn.configure).set_use_server_name_indication sni).set_verify_hostname
          vh).connect native domain)) ↔ vh = true) := by
  refine ⟨rfl, rfl, ?_, ?_⟩
  · cases sni <;> cases vh <;> cases native <;>
      rcases hp : parseIp domain with - | ip <;>
        simp [SslConnector.configure, ConnectConfiguration.set_use_server_name_indication,
          ConnectConfiguration.set_verify_hostname, ConnectConfiguration.connect,
          setup_verify_hostname, Ssl.new, Ssl.set_hostname, Ssl.set_ex_data_hostname, hp]
  · cases sni <;> cases vh <;> cases native <;>
      rcases hp : parseIp domain with - | ip <;>
        simp [SslConnector.configure, ConnectConfiguration.set_use_server_name_indication,
          ConnectConfiguration.set_verify_hostname, ConnectConfiguration.connect,
          setup_verify_hostname, Ssl.new, Ssl.set_hostname, Ssl.set_ex_data_hostname,
          hostnameRegistered, hp]

/-- Claim C5: `matches_wildcard` returns `none` exactly when one of the
listed conditions holds — ACE-prefixed pattern, no '*' in the pattern, fewer
than two dots in the pattern, the first '*' not located within the first
label, or a hostname with no label boundary — and `some _` otherwise. -/
theorem c5_wildcard_none_iff (pattern hostname : List Char) :
    verify.matches_wildcard pattern hostname = none ↔ wildcardNone pattern hostname := by
  unfold verify.matches_wildcard
  split
  · next hxn =>
    exact iff_of_true rfl (Or.inl hxn)
  · next hxn =>
    split
    · next hstar =>
      exact iff_of_true rfl (Or.inr (Or.inl ((findIdxChar_eq_none_iff '*' pattern).mp hstar)))
    · next wl hstar =>
      split
      · next hh =>
        refine iff_of_true rfl (Or.inr (Or.inr (Or.inl ?_)))
        rw [← idxsOf_length '.' pattern, List.head?_eq_none_iff.mp hh]
        decide
      · next we hh =>
        split
        · next ht =>
          refine iff_of_true rfl (Or.inr (Or.inr (Or.inl ?_)))
          rw [← idxsOf_length '.' pattern]
          rcases hl : idxsOf '.' pattern with - | ⟨x, - | ⟨y, t⟩⟩
          · simp
          · simp
          · rw [hl] at ht
            exact absurd ht (by simp)
        · next sd ht =>
          have hwe : pattern.findIdx? (fun c => c == '.') = some we := by
            rw [← idxsOf_head? '.' pattern, hh]
          split
          · next hcomp =>
            exact iff_of_true rfl
              (Or.inr (Or.inr (Or.inr (Or.inl ⟨wl, we, hstar, hwe, Nat.le_of_lt hcomp⟩))))
          · next hcomp =>
            split
            · next hhn =>
              exact iff_of_true rfl
                (Or.inr (Or.inr (Or.inr (Or.inr ((findIdxChar_eq_none_iff '.' hostname).mp hhn)))))
            · next hle hhn =>
              refine iff_of_false ?_ ?_
              · split_ifs <;> simp
              · rintro (d1 | d2 | d3 | d4 | d5)
                · exact hxn d1
                · exact d2 (mem_of_findIdxChar_eq_some hstar)
                · rw [← idxsOf_length '.' pattern] at d3
                  rcases hl : idxsOf '.' pattern with - | ⟨x, - | ⟨y, t⟩⟩
                  · rw [hl] at hh
                    exact absurd hh (by simp)
                  · rw [hl] at ht
                    exact absurd ht (by simp)
                  · rw [hl] at d3
                    simp at d3
                    omega
                · obtain ⟨wl', we', h1', h2', hle'⟩ := d4
                  rw [hstar, Option.some.injEq] at h1'
                  rw [hwe, Option.some.injEq] at h2'
                  subst h1'
                  subst h2'
                  have hne := findIdxChar_star_ne_dot hstar hwe
                  omega
                · exact d5 (mem_of_findIdxChar_eq_some hhn)
